import Mathlib

/-!
Shallow embedding of the ST7789V LCD driver
(`src/embedded/LCDController/tuya_lvgl_demo/driver/tuya_lcd.c`).

The driver is a pure sequencer: every function only calls `tuya_gpio_write`,
`tuya_spi_write`, a busy-wait delay, and (in `lcd_flush`) `lv_disp_flush_ready`.
We embed each C function as the list of platform calls (events) it performs,
in order.  Machine integers are modelled as `Nat`/`Int` with explicit
`% 2^w` at the points where the C code narrows a value
(`uint32_t size` → `uint16_t len` → `tuya_spi_write`).
-/

namespace LCD

/-- Pin numbers, from `tuya_lcd.h` / `tuya_gpio.h`: LCD_CS_PIN = P8. -/
def LCD_CS_PIN : Nat := 8

/-- LCD_DC_PIN = P9. -/
def LCD_DC_PIN : Nat := 9

/-- LCD_RST_PIN = P10. -/
def LCD_RST_PIN : Nat := 10

/-- LCD_BL_PIN = P11. -/
def LCD_BL_PIN : Nat := 11

/-- Panel width constant `LCD_WIDTH` from `tuya_lcd.h`. -/
def LCD_WIDTH : Nat := 240

/-- Panel height constant `LCD_HEIGHT` from `tuya_lcd.h`. -/
def LCD_HEIGHT : Nat := 320

/-- One observable platform call made by the driver. -/
inductive Ev where
  /-- `tuya_gpio_config(pin, TUYA_GPIO_OUTPUT)` -/
  | gpioConfig : Nat → Ev
  /-- `tuya_gpio_write(pin, level)` -/
  | gpioWrite : Nat → Nat → Ev
  /-- `tuya_spi_init()` -/
  | spiInit : Ev
  /-- `tuya_spi_write(buf, len)`, carrying the transferred bytes -/
  | spiWrite : List Nat → Ev
  /-- `lcd_delay_ms(ms)` -/
  | delay : Nat → Ev
  /-- `lv_disp_flush_ready(drv)` -/
  | flushReady : Ev
deriving DecidableEq, Repr

/-- `lcd_write_cmd(cmd)`: DC low (command mode), CS low (select), one SPI
byte, CS high (deselect). -/
def lcd_write_cmd (cmd : Nat) : List Ev :=
  [Ev.gpioWrite LCD_DC_PIN 0, Ev.gpioWrite LCD_CS_PIN 0,
   Ev.spiWrite [cmd], Ev.gpioWrite LCD_CS_PIN 1]

/-- `lcd_write_data(data)`: DC high (data mode), CS low, one SPI byte,
CS high. -/
def lcd_write_data (d : Nat) : List Ev :=
  [Ev.gpioWrite LCD_DC_PIN 1, Ev.gpioWrite LCD_CS_PIN 0,
   Ev.spiWrite [d], Ev.gpioWrite LCD_CS_PIN 1]

/-- `lcd_write_data_buf(buf, len)`: DC high, CS low, one SPI transfer of
`len` bytes from `buf`, CS high.  `len` is the already-narrowed `uint16_t`
parameter value. -/
def lcd_write_data_buf (buf : List Nat) (len : Nat) : List Ev :=
  [Ev.gpioWrite LCD_DC_PIN 1, Ev.gpioWrite LCD_CS_PIN 0,
   Ev.spiWrite (buf.take len), Ev.gpioWrite LCD_CS_PIN 1]

/-- `lcd_delay_ms(ms)`: the busy-wait delay, modelled as a delay event of its
nominal duration (the spec treats the spin loop as a placeholder for the
platform sleep primitive). -/
def lcd_delay_ms (ms : Nat) : List Ev := [Ev.delay ms]

/-- `lcd_set_address_window(x0, y0, x1, y1)` from `tuya_lcd.c` lines 95-113:
CASET (0x2A) with the two big-endian bytes of x0 then x1, RASET (0x2B) with
the two big-endian bytes of y0 then y1, then RAMWR (0x2C).  Arguments are
`uint16_t` values (all `< 2^16`), so `x0 >> 8` is `x0 / 256` and
`x0 & 0xFF` is `x0 % 256`. -/
def lcd_set_address_window (x0 y0 x1 y1 : Nat) : List Ev :=
  lcd_write_cmd 0x2A ++
  lcd_write_data (x0 / 256) ++ lcd_write_data (x0 % 256) ++
  lcd_write_data (x1 / 256) ++ lcd_write_data (x1 % 256) ++
  lcd_write_cmd 0x2B ++
  lcd_write_data (y0 / 256) ++ lcd_write_data (y0 % 256) ++
  lcd_write_data (y1 / 256) ++ lcd_write_data (y1 % 256) ++
  lcd_write_cmd 0x2C

/-- `lcd_init()` from `tuya_lcd.c` lines 133-249, event by event. -/
def lcd_init : List Ev :=
  [Ev.gpioConfig LCD_CS_PIN, Ev.gpioConfig LCD_DC_PIN,
   Ev.gpioConfig LCD_RST_PIN, Ev.gpioConfig LCD_BL_PIN,
   Ev.spiInit,
   Ev.gpioWrite LCD_RST_PIN 0] ++ lcd_delay_ms 10 ++
  [Ev.gpioWrite LCD_RST_PIN 1] ++ lcd_delay_ms 120 ++
  [Ev.gpioWrite LCD_BL_PIN 1] ++
  lcd_write_cmd 0x01 ++ lcd_delay_ms 150 ++
  lcd_write_cmd 0x11 ++ lcd_delay_ms 10 ++
  lcd_write_cmd 0x3A ++ lcd_write_data 0x55 ++
  lcd_write_cmd 0x36 ++ lcd_write_data 0x00 ++
  lcd_write_cmd 0x2A ++ lcd_write_data 0x00 ++ lcd_write_data 0x00 ++
    lcd_write_data 0x00 ++ lcd_write_data 0xEF ++
  lcd_write_cmd 0x2B ++ lcd_write_data 0x00 ++ lcd_write_data 0x00 ++
    lcd_write_data 0x01 ++ lcd_write_data 0x3F ++
  lcd_write_cmd 0xB2 ++ lcd_write_data 0x0C ++ lcd_write_data 0x0C ++
    lcd_write_data 0x00 ++ lcd_write_data 0x33 ++ lcd_write_data 0x33 ++
  lcd_write_cmd 0xB7 ++ lcd_write_data 0x35 ++
  lcd_write_cmd 0xBB ++ lcd_write_data 0x19 ++
  lcd_write_cmd 0xC0 ++ lcd_write_data 0x2C ++
  lcd_write_cmd 0xC2 ++ lcd_write_data 0x01 ++
  lcd_write_cmd 0xC3 ++ lcd_write_data 0x12 ++
  lcd_write_cmd 0xC4 ++ lcd_write_data 0x20 ++
  lcd_write_cmd 0xC6 ++ lcd_write_data 0x0F ++
  lcd_write_cmd 0xD0 ++ lcd_write_data 0xA4 ++ lcd_write_data 0xA1 ++
  lcd_write_cmd 0xE0 ++ lcd_write_data 0xD0 ++ lcd_write_data 0x04 ++
    lcd_write_data 0x0D ++ lcd_write_data 0x11 ++ lcd_write_data 0x13 ++
    lcd_write_data 0x2B ++ lcd_write_data 0x3F ++ lcd_write_data 0x54 ++
    lcd_write_data 0x4C ++ lcd_write_data 0x18 ++ lcd_write_data 0x0D ++
    lcd_write_data 0x0B ++ lcd_write_data 0x1F ++ lcd_write_data 0x23 ++
  lcd_write_cmd 0xE1 ++ lcd_write_data 0xD0 ++ lcd_write_data 0x04 ++
    lcd_write_data 0x0C ++ lcd_write_data 0x11 ++ lcd_write_data 0x13 ++
    lcd_write_data 0x2C ++ lcd_write_data 0x3F ++ lcd_write_data 0x44 ++
    lcd_write_data 0x51 ++ lcd_write_data 0x2F ++ lcd_write_data 0x1F ++
    lcd_write_data 0x1F ++ lcd_write_data 0x20 ++ lcd_write_data 0x23 ++
  lcd_write_cmd 0x13 ++ lcd_delay_ms 10 ++
  lcd_write_cmd 0x29 ++ lcd_delay_ms 100

/-- `lv_area_t` from `lvgl.h`: four `int16_t` coordinates. -/
structure lv_area_t where
  x1 : Int
  y1 : Int
  x2 : Int
  y2 : Int
deriving DecidableEq, Repr

/-- C conversion of an integer value to `uint16_t` (modulo 2^16). -/
def u16 (i : Int) : Nat := (i % 65536).toNat

/-- C conversion of an integer value to `uint32_t` (modulo 2^32). -/
def u32 (i : Int) : Nat := (i % 4294967296).toNat

/-- `uint32_t size = (area->x2 - area->x1 + 1) * (area->y2 - area->y1 + 1);`
the pixel count, computed in `int` and stored into `uint32_t`. -/
def flush_size (a : lv_area_t) : Nat :=
  u32 ((a.x2 - a.x1 + 1) * (a.y2 - a.y1 + 1))

/-- The argument `size * 2` (computed in `uint32_t`) as received by the
`uint16_t len` parameter of `lcd_write_data_buf`: narrowed modulo 2^16. -/
def flush_len (a : lv_area_t) : Nat :=
  flush_size a * 2 % 4294967296 % 65536

/-- The window-set plus pixel-burst part of `lcd_flush` (everything it sends
on the bus, before the completion callback). -/
def flushWrites (a : lv_area_t) (color_p : List Nat) : List Ev :=
  lcd_set_address_window (u16 a.x1) (u16 a.y1) (u16 a.x2) (u16 a.y2) ++
  lcd_write_data_buf color_p (flush_len a)

/-- `lcd_flush(drv, area, color_p)` from `tuya_lcd.c` lines 258-271:
window set, pixel burst, then `lv_disp_flush_ready`.  The `int16_t` area
fields are narrowed to the `uint16_t` parameters of
`lcd_set_address_window`. -/
def lcd_flush (a : lv_area_t) (color_p : List Nat) : List Ev :=
  flushWrites a color_p ++ [Ev.flushReady]

/-- `lcd_write_cmd` with the value returned by `tuya_spi_write` made
explicit: the C body discards that return value (`tuya_spi_write(&cmd, 1);`
as a statement) and returns `void`, so the caller-visible result is the
same for every transport return code. -/
def lcd_write_cmd_run (cmd : Nat) (_spiRet : Int) : List Ev × Unit :=
  (lcd_write_cmd cmd, ())

/-- `lcd_write_data` with the transport return code made explicit;
discarded exactly as in `lcd_write_cmd_run`. -/
def lcd_write_data_run (d : Nat) (_spiRet : Int) : List Ev × Unit :=
  (lcd_write_data d, ())

/-- `lcd_write_data_buf` with the transport return code made explicit;
discarded exactly as in `lcd_write_cmd_run`. -/
def lcd_write_data_buf_run (buf : List Nat) (len : Nat) (_spiRet : Int) :
    List Ev × Unit :=
  (lcd_write_data_buf buf len, ())

/-! ## Observation functions on traces -/

/-- Number of `tuya_spi_write` calls (bus transfers) in a trace. -/
def spiCount : List Ev → Nat
  | [] => 0
  | Ev.spiWrite _ :: r => spiCount r + 1
  | _ :: r => spiCount r

/-- Number of `lv_disp_flush_ready` calls in a trace. -/
def readyCount : List Ev → Nat
  | [] => 0
  | Ev.flushReady :: r => readyCount r + 1
  | _ :: r => readyCount r

/-- The bytes of the last SPI transfer in a trace (the pixel burst, for a
flush trace). -/
def lastSpiBytes (t : List Ev) : List Nat :=
  t.foldl (fun acc e => match e with | Ev.spiWrite bs => bs | _ => acc) []

/-- Every SPI byte of a trace paired with the command/data-select level in
force when it was transferred (`dc` is the current DC level, 0 = command,
1 = data). -/
def taggedBytes : Nat → List Ev → List (Nat × Nat)
  | _, [] => []
  | dc, Ev.gpioWrite p v :: r =>
      taggedBytes (if p == LCD_DC_PIN then v else dc) r
  | dc, Ev.spiWrite bs :: r => bs.map (fun b => (dc, b)) ++ taggedBytes dc r
  | dc, _ :: r => taggedBytes dc r

/-- Group a tagged byte list into (command byte, parameter bytes) pairs:
`acc` holds the parameters of the command `c` seen so far. -/
def cmdGroupsAux : Nat → List Nat → List (Nat × Nat) → List (Nat × List Nat)
  | c, acc, [] => [(c, acc)]
  | c, acc, (0, c2) :: r => (c, acc) :: cmdGroupsAux c2 [] r
  | c, acc, (_ + 1, d) :: r => cmdGroupsAux c (acc ++ [d]) r

/-- The (command byte, parameter bytes) groups of a tagged byte list,
in emission order. -/
def cmdGroups : List (Nat × Nat) → List (Nat × List Nat)
  | [] => []
  | (0, c) :: r => cmdGroupsAux c [] r
  | (_ + 1, _) :: r => cmdGroups r

/-- Trace view for the timing claims: keep only bus transfers, delays and
reset-line writes, dropping the other GPIO traffic. -/
def busDelayView (t : List Ev) : List Ev :=
  t.filter fun e =>
    match e with
    | Ev.spiWrite _ => true
    | Ev.delay _ => true
    | Ev.gpioWrite p _ => p == LCD_RST_PIN
    | _ => false

/-- Chip-select level after running a trace from level `cs`. -/
def csAfter : Nat → List Ev → Nat
  | cs, [] => cs
  | cs, Ev.gpioWrite p v :: r =>
      csAfter (if p == LCD_CS_PIN then v else cs) r
  | cs, _ :: r => csAfter cs r

/-- Number of deasserted-to-asserted (1 to 0) chip-select transitions in a
trace starting from level `cs`. -/
def csAsserts : Nat → List Ev → Nat
  | _, [] => 0
  | cs, Ev.gpioWrite p v :: r =>
      if p == LCD_CS_PIN then
        (if cs == 1 && v == 0 then csAsserts v r + 1 else csAsserts v r)
      else csAsserts cs r
  | cs, _ :: r => csAsserts cs r

/-- `true` iff the DC line is never written while chip-select is asserted
(cs = 0), starting from chip-select level `cs`. -/
def dcQuietWhileSelected : Nat → List Ev → Bool
  | _, [] => true
  | cs, Ev.gpioWrite p v :: r =>
      if p == LCD_DC_PIN then cs == 1 && dcQuietWhileSelected cs r
      else if p == LCD_CS_PIN then dcQuietWhileSelected v r
      else dcQuietWhileSelected cs r
  | cs, _ :: r => dcQuietWhileSelected cs r

/-- `true` iff every SPI transfer of the trace happens while chip-select is
asserted (cs = 0), starting from chip-select level `cs`. -/
def spiSelected : Nat → List Ev → Bool
  | _, [] => true
  | cs, Ev.gpioWrite p v :: r =>
      spiSelected (if p == LCD_CS_PIN then v else cs) r
  | cs, Ev.spiWrite _ :: r => cs == 0 && spiSelected cs r
  | cs, _ :: r => spiSelected cs r

/-- `true` iff the first event of the trace writes the DC line. -/
def firstSetsDC : List Ev → Bool
  | Ev.gpioWrite p _ :: _ => p == LCD_DC_PIN
  | _ => false

/-- A single bus-framer operation is well framed: starting with chip-select
deasserted, it sets DC first, asserts chip-select exactly once, performs
every SPI transfer with chip-select asserted, never moves DC while
chip-select is asserted, and leaves chip-select deasserted. -/
def wellFramed (t : List Ev) : Prop :=
  firstSetsDC t = true ∧
  csAsserts 1 t = 1 ∧
  spiSelected 1 t = true ∧
  dcQuietWhileSelected 1 t = true ∧
  csAfter 1 t = 1

/-- Sequential run of several flush calls (the driver keeps no state
between calls, so this is plain concatenation of the per-call traces). -/
def runBlits : List (lv_area_t × List Nat) → List Ev
  | [] => []
  | (a, b) :: r => lcd_flush a b ++ runBlits r

end LCD


namespace LCD

/-! ## Shared lemmas -/

/-- The last SPI transfer of a flush trace is the pixel burst:
`color_p` cut down to the (narrowed) `len` argument. -/
theorem lastSpiBytes_flush (a : lv_area_t) (buf : List Nat) :
    lastSpiBytes (lcd_flush a buf) = buf.take (flush_len a) := rfl

end LCD

/-- C3: for every rectangle fully inside panel geometry, the byte sequence of
a window-set call is exactly the column-address command 0x2A with the two
big-endian bytes of x0 then x1 as data, the row-address command 0x2B with the
two big-endian bytes of y0 then y1 as data, then the memory-write command
0x2C with no parameter bytes and no extra bytes; the DC line is at command
level (0) for each command byte and at data level (1) for each address byte,
and hi/lo reassemble each coordinate big-endian. -/
theorem C3_window_set_byte_sequence (x0 y0 x1 y1 : Nat)
    (hx : x0 ≤ x1) (hx1 : x1 < LCD.LCD_WIDTH)
    (hy : y0 ≤ y1) (hy1 : y1 < LCD.LCD_HEIGHT) :
    LCD.taggedBytes 1 (LCD.lcd_set_address_window x0 y0 x1 y1) =
      [(0, 0x2A), (1, x0 / 256), (1, x0 % 256), (1, x1 / 256), (1, x1 % 256),
       (0, 0x2B), (1, y0 / 256), (1, y0 % 256), (1, y1 / 256), (1, y1 % 256),
       (0, 0x2C)] ∧
    256 * (x0 / 256) + x0 % 256 = x0 ∧ 256 * (x1 / 256) + x1 % 256 = x1 ∧
    256 * (y0 / 256) + y0 % 256 = y0 ∧ 256 * (y1 / 256) + y1 % 256 = y1 := by
  refine ⟨rfl, ?_, ?_, ?_, ?_⟩ <;> omega

/-- C3 witness: the window-set sequence at the concrete full-panel
rectangle (0,0)-(239,319). -/
theorem C3_window_set_byte_sequence_witness :
    (0 ≤ 239 ∧ 239 < LCD.LCD_WIDTH ∧ 0 ≤ 319 ∧ 319 < LCD.LCD_HEIGHT) ∧
    (LCD.taggedBytes 1 (LCD.lcd_set_address_window 0 0 239 319) =
      [(0, 0x2A), (1, 0 / 256), (1, 0 % 256), (1, 239 / 256), (1, 239 % 256),
       (0, 0x2B), (1, 0 / 256), (1, 0 % 256), (1, 319 / 256), (1, 319 % 256),
       (0, 0x2C)] ∧
     256 * (0 / 256) + 0 % 256 = 0 ∧ 256 * (239 / 256) + 239 % 256 = 239 ∧
     256 * (0 / 256) + 0 % 256 = 0 ∧ 256 * (319 / 256) + 319 % 256 = 319) :=
  ⟨by decide,
   C3_window_set_byte_sequence 0 0 239 319
     (by decide) (by decide) (by decide) (by decide)⟩

/-- C4: `lcd_init` emits exactly these (command, parameters) groups in this
order: software-reset, sleep-out, then the register configuration —
color-mode 0x3A, memory-access 0x36, column-address defaults 0..239,
row-address defaults 0..319, porch-control 0xB2, gate-control 0xB7,
VCOMS 0xBB, LCM-control 0xC0, VDV/VRH-enable 0xC2, VRH 0xC3, VDV 0xC4,
frame-rate-control-2 0xC6, power-control-1 0xD0, positive gamma 0xE0
(14 bytes), negative gamma 0xE1 (14 bytes) — then normal-display-on and
display-on, with no omissions and no extra commands. -/
theorem C4_init_command_order :
    LCD.cmdGroups (LCD.taggedBytes 1 LCD.lcd_init) =
      [(0x01, []), (0x11, []),
       (0x3A, [0x55]),
       (0x36, [0x00]),
       (0x2A, [0x00, 0x00, 0x00, 0xEF]),
       (0x2B, [0x00, 0x00, 0x01, 0x3F]),
       (0xB2, [0x0C, 0x0C, 0x00, 0x33, 0x33]),
       (0xB7, [0x35]),
       (0xBB, [0x19]),
       (0xC0, [0x2C]),
       (0xC2, [0x01]),
       (0xC3, [0x12]),
       (0xC4, [0x20]),
       (0xC6, [0x0F]),
       (0xD0, [0xA4, 0xA1]),
       (0xE0, [0xD0, 0x04, 0x0D, 0x11, 0x13, 0x2B, 0x3F, 0x54,
               0x4C, 0x18, 0x0D, 0x0B, 0x1F, 0x23]),
       (0xE1, [0xD0, 0x04, 0x0C, 0x11, 0x13, 0x2C, 0x3F, 0x44,
               0x51, 0x2F, 0x1F, 0x1F, 0x20, 0x23]),
       (0x13, []), (0x29, [])] := by decide

/-- C6: in the initialization trace, restricted to reset-line writes, bus
transfers and delays, each mandatory delay sits between its trigger and the
next bus activity: reset low, 10 ms, reset high, 120 ms before the first
command byte; 150 ms after software-reset 0x01; 10 ms after sleep-out 0x11;
10 ms after normal-display-on 0x13; and 100 ms after display-on 0x29 before
`lcd_init` returns. -/
theorem C6_init_delays :
    LCD.busDelayView LCD.lcd_init =
      [LCD.Ev.gpioWrite LCD.LCD_RST_PIN 0, LCD.Ev.delay 10,
       LCD.Ev.gpioWrite LCD.LCD_RST_PIN 1, LCD.Ev.delay 120,
       LCD.Ev.spiWrite [0x01], LCD.Ev.delay 150,
       LCD.Ev.spiWrite [0x11], LCD.Ev.delay 10,
       LCD.Ev.spiWrite [0x3A], LCD.Ev.spiWrite [0x55],
       LCD.Ev.spiWrite [0x36], LCD.Ev.spiWrite [0x00],
       LCD.Ev.spiWrite [0x2A], LCD.Ev.spiWrite [0x00], LCD.Ev.spiWrite [0x00],
       LCD.Ev.spiWrite [0x00], LCD.Ev.spiWrite [0xEF],
       LCD.Ev.spiWrite [0x2B], LCD.Ev.spiWrite [0x00], LCD.Ev.spiWrite [0x00],
       LCD.Ev.spiWrite [0x01], LCD.Ev.spiWrite [0x3F],
       LCD.Ev.spiWrite [0xB2], LCD.Ev.spiWrite [0x0C], LCD.Ev.spiWrite [0x0C],
       LCD.Ev.spiWrite [0x00], LCD.Ev.spiWrite [0x33], LCD.Ev.spiWrite [0x33],
       LCD.Ev.spiWrite [0xB7], LCD.Ev.spiWrite [0x35],
       LCD.Ev.spiWrite [0xBB], LCD.Ev.spiWrite [0x19],
       LCD.Ev.spiWrite [0xC0], LCD.Ev.spiWrite [0x2C],
       LCD.Ev.spiWrite [0xC2], LCD.Ev.spiWrite [0x01],
       LCD.Ev.spiWrite [0xC3], LCD.Ev.spiWrite [0x12],
       LCD.Ev.spiWrite [0xC4], LCD.Ev.spiWrite [0x20],
       LCD.Ev.spiWrite [0xC6], LCD.Ev.spiWrite [0x0F],
       LCD.Ev.spiWrite [0xD0], LCD.Ev.spiWrite [0xA4], LCD.Ev.spiWrite [0xA1],
       LCD.Ev.spiWrite [0xE0],
       LCD.Ev.spiWrite [0xD0], LCD.Ev.spiWrite [0x04], LCD.Ev.spiWrite [0x0D],
       LCD.Ev.spiWrite [0x11], LCD.Ev.spiWrite [0x13], LCD.Ev.spiWrite [0x2B],
       LCD.Ev.spiWrite [0x3F], LCD.Ev.spiWrite [0x54], LCD.Ev.spiWrite [0x4C],
       LCD.Ev.spiWrite [0x18], LCD.Ev.spiWrite [0x0D], LCD.Ev.spiWrite [0x0B],
       LCD.Ev.spiWrite [0x1F], LCD.Ev.spiWrite [0x23],
       LCD.Ev.spiWrite [0xE1],
       LCD.Ev.spiWrite [0xD0], LCD.Ev.spiWrite [0x04], LCD.Ev.spiWrite [0x0C],
       LCD.Ev.spiWrite [0x11], LCD.Ev.spiWrite [0x13], LCD.Ev.spiWrite [0x2C],
       LCD.Ev.spiWrite [0x3F], LCD.Ev.spiWrite [0x44], LCD.Ev.spiWrite [0x51],
       LCD.Ev.spiWrite [0x2F], LCD.Ev.spiWrite [0x1F], LCD.Ev.spiWrite [0x1F],
       LCD.Ev.spiWrite [0x20], LCD.Ev.spiWrite [0x23],
       LCD.Ev.spiWrite [0x13], LCD.Ev.delay 10,
       LCD.Ev.spiWrite [0x29], LCD.Ev.delay 100] := by decide

/-- C1 (code evaluated at the failing input): a full-panel blit — rectangle
(0,0)-(239,319), matching buffer of 240*320*2 = 153600 bytes — hands only
22528 = 153600 mod 2^16 bytes to the transport for the pixel burst, because
`size * 2` (`uint32_t`) is narrowed through the `uint16_t len` parameter of
`lcd_write_data_buf`; the spec requires exactly width*height*2 bytes. -/
theorem C1_full_panel_burst_truncated :
    (LCD.lastSpiBytes
        (LCD.lcd_flush ⟨0, 0, 239, 319⟩ (List.replicate 153600 0))).length
      = 22528 ∧
    LCD.LCD_WIDTH * LCD.LCD_HEIGHT * 2 = 153600 ∧ (22528 : Nat) ≠ 153600 := by
  refine ⟨?_, by decide, by decide⟩
  rw [LCD.lastSpiBytes_flush]
  have h : LCD.flush_len ⟨0, 0, 239, 319⟩ = 22528 := by decide
  rw [h, List.length_take, List.length_replicate]
  omega

/-- C2 counterexample: a blit whose rectangle exceeds panel geometry
(x2 = 300 ≥ 240) is not rejected — `lcd_flush` still issues 12 bus
transfers (11 window-set writes plus the pixel burst), not zero. -/
theorem C2_out_of_bounds_not_rejected :
    LCD.spiCount (LCD.lcd_flush ⟨0, 0, 300, 0⟩ (List.replicate 602 0)) = 12 ∧
    (12 : Nat) ≠ 0 := by
  exact ⟨rfl, by decide⟩

/-- C2 amended: `lcd_flush` performs no validation at all — for every
rectangle (inside the panel or not) and every buffer (matching length or
not), it issues exactly 12 bus transfers (the 11 window-set writes and the
pixel burst) and invokes the completion callback once; it returns `void`,
so no invalid-argument condition is ever reported. -/
theorem C2_amended_no_validation (a : LCD.lv_area_t) (buf : List Nat) :
    LCD.spiCount (LCD.lcd_flush a buf) = 12 ∧
    LCD.readyCount (LCD.lcd_flush a buf) = 1 :=
  ⟨rfl, rfl⟩

/-- C5 counterexample: a transport failure is not surfaced — each framer
function returns `void` and discards the return code of `tuya_spi_write`,
so its caller-visible behaviour on a failing transport (return code -1) is
identical to its behaviour on success (return code 0). -/
theorem C5_failure_not_surfaced :
    LCD.lcd_write_cmd_run 0x01 (-1) = LCD.lcd_write_cmd_run 0x01 0 ∧
    LCD.lcd_write_data_run 0x55 (-1) = LCD.lcd_write_data_run 0x55 0 ∧
    LCD.lcd_write_data_buf_run [0xAB] 1 (-1) =
      LCD.lcd_write_data_buf_run [0xAB] 1 0 :=
  ⟨rfl, rfl, rfl⟩

/-- C5 amended: whatever the transport returns, each framer operation
behaves identically to the success case (the return code is discarded and
nothing is surfaced), performs exactly one transport write (no retry), and
leaves chip-select deasserted (level 1) when it returns. -/
theorem C5_amended_transport_result_discarded
    (cmd d len : Nat) (buf : List Nat) (r : Int) :
    LCD.lcd_write_cmd_run cmd r = LCD.lcd_write_cmd_run cmd 0 ∧
    LCD.lcd_write_data_run d r = LCD.lcd_write_data_run d 0 ∧
    LCD.lcd_write_data_buf_run buf len r = LCD.lcd_write_data_buf_run buf len 0 ∧
    LCD.spiCount (LCD.lcd_write_cmd cmd) = 1 ∧
    LCD.spiCount (LCD.lcd_write_data d) = 1 ∧
    LCD.spiCount (LCD.lcd_write_data_buf buf len) = 1 ∧
    LCD.csAfter 1 (LCD.lcd_write_cmd cmd) = 1 ∧
    LCD.csAfter 1 (LCD.lcd_write_data d) = 1 ∧
    LCD.csAfter 1 (LCD.lcd_write_data_buf buf len) = 1 :=
  ⟨rfl, rfl, rfl, rfl, rfl, rfl, rfl, rfl, rfl⟩

set_option maxHeartbeats 2000000 in
/-- C7: for every blit, the flush trace is exactly the bus writes followed
by one `lv_disp_flush_ready` call: the callback occurs exactly once, occurs
after every bus transfer of the blit (no SPI transfer follows it), and
before `lcd_flush` returns (it is the last event of the call, performed
synchronously). -/
theorem C7_flush_ready_once_after_burst (a : LCD.lv_area_t) (buf : List Nat) :
    LCD.lcd_flush a buf = LCD.flushWrites a buf ++ [LCD.Ev.flushReady] ∧
    LCD.readyCount (LCD.flushWrites a buf) = 0 ∧
    LCD.readyCount (LCD.lcd_flush a buf) = 1 ∧
    LCD.spiCount (LCD.lcd_flush a buf) = 12 ∧
    LCD.spiCount (LCD.flushWrites a buf) = 12 :=
  ⟨rfl, rfl, rfl, rfl, rfl⟩

/-- C8: each bus-framer operation is well framed: it sets the DC line
first (before chip-select is asserted), asserts chip-select exactly once,
performs every SPI transfer with chip-select asserted, never moves DC while
chip-select is asserted, and deasserts chip-select before returning —
chip-select is never left asserted across calls. -/
theorem C8_framer_well_framed (cmd d len : Nat) (buf : List Nat) :
    LCD.wellFramed (LCD.lcd_write_cmd cmd) ∧
    LCD.wellFramed (LCD.lcd_write_data d) ∧
    LCD.wellFramed (LCD.lcd_write_data_buf buf len) :=
  ⟨⟨rfl, rfl, rfl, rfl, rfl⟩, ⟨rfl, rfl, rfl, rfl, rfl⟩,
   ⟨rfl, rfl, rfl, rfl, rfl⟩⟩

/-- C9: the driver keeps no state between blits, so invoking blit twice
with the same rectangle and the same buffer produces two identical
back-to-back byte/line-state sequences on the bus: the emitted trace is a
deterministic function of the rectangle and buffer alone. -/
theorem C9_blit_deterministic (a : LCD.lv_area_t) (buf : List Nat) :
    LCD.runBlits [(a, buf), (a, buf)] =
      LCD.lcd_flush a buf ++ LCD.lcd_flush a buf := by
  simp [LCD.runBlits]

/-- C10: for every blit whose rectangle lies inside the panel and whose
pixel count times two exceeds 65535 (e.g. a full-panel flush), the byte
count handed to the transport for the pixel burst equals
(width*height*2) mod 2^16: the 32-bit byte count is narrowed through the
16-bit `len` parameter of `lcd_write_data_buf` / `tuya_spi_write`. -/
theorem C10_pixel_len_truncated (a : LCD.lv_area_t) (buf : List Nat)
    (hx0 : 0 ≤ a.x1) (hx : a.x1 ≤ a.x2) (hx2 : a.x2 < 240)
    (hy0 : 0 ≤ a.y1) (hy : a.y1 ≤ a.y2) (hy2 : a.y2 < 320)
    (hbig : 65535 < (a.x2 - a.x1 + 1) * (a.y2 - a.y1 + 1) * 2)
    (hbuf : (buf.length : Int) = (a.x2 - a.x1 + 1) * (a.y2 - a.y1 + 1) * 2) :
    (LCD.flush_len a : Int) =
      (a.x2 - a.x1 + 1) * (a.y2 - a.y1 + 1) * 2 % 65536 ∧
    ((LCD.lastSpiBytes (LCD.lcd_flush a buf)).length : Int) =
      (a.x2 - a.x1 + 1) * (a.y2 - a.y1 + 1) * 2 % 65536 := by
  have hP1 : (0 : Int) < (a.x2 - a.x1 + 1) * (a.y2 - a.y1 + 1) :=
    mul_pos (by omega) (by omega)
  have hP2 : (a.x2 - a.x1 + 1) * (a.y2 - a.y1 + 1) ≤ 76800 := by
    calc (a.x2 - a.x1 + 1) * (a.y2 - a.y1 + 1)
        ≤ 240 * 320 := by
          apply mul_le_mul (by omega) (by omega) (by omega) (by omega)
      _ = 76800 := by norm_num
  have hlen : (LCD.flush_len a : Int) =
      (a.x2 - a.x1 + 1) * (a.y2 - a.y1 + 1) * 2 % 65536 := by
    unfold LCD.flush_len LCD.flush_size LCD.u32
    generalize hQ : (a.x2 - a.x1 + 1) * (a.y2 - a.y1 + 1) = P at hP1 hP2 hbig ⊢
    omega
  refine ⟨hlen, ?_⟩
  rw [LCD.lastSpiBytes_flush, List.length_take]
  omega

/-- C10 witness: the full-panel blit, rectangle (0,0)-(239,319) with a
matching 153600-byte buffer; the burst length handed to the transport is
153600 mod 2^16 = 22528. -/
theorem C10_pixel_len_truncated_witness :
    ((0 : Int) ≤ 0 ∧ (0 : Int) ≤ 239 ∧ (239 : Int) < 240 ∧
     (0 : Int) ≤ 0 ∧ (0 : Int) ≤ 319 ∧ (319 : Int) < 320 ∧
     (65535 : Int) < (239 - 0 + 1) * (319 - 0 + 1) * 2 ∧
     ((List.replicate 153600 (0 : Nat)).length : Int) =
       (239 - 0 + 1) * (319 - 0 + 1) * 2) ∧
    (LCD.flush_len ⟨0, 0, 239, 319⟩ : Int) =
      ((239 : Int) - 0 + 1) * (319 - 0 + 1) * 2 % 65536 ∧
    ((LCD.lastSpiBytes
        (LCD.lcd_flush ⟨0, 0, 239, 319⟩ (List.replicate 153600 0))).length : Int) =
      ((239 : Int) - 0 + 1) * (319 - 0 + 1) * 2 % 65536 :=
  ⟨by norm_num,
   C10_pixel_len_truncated ⟨0, 0, 239, 319⟩ (List.replicate 153600 0)
     (by norm_num) (by norm_num) (by norm_num) (by norm_num) (by norm_num)
     (by norm_num) (by norm_num) (by norm_num)⟩
